import Mathlib

/-!
Verification of the Unstructured Finance Analysis Agent
(`uagent/main.py`), a single-endpoint HTTP service that builds a prompt
from a request, calls an external text-generation provider once, parses
the provider output as JSON and forwards it, mapping every failure to a
uniform 500 response.

The embedding models the provider as an oracle `String → Except String
String` (prompt in, either raised-exception text or response text out),
and the handler as a small free-monad program so that the number of
provider invocations per request is observable.
-/

/-- Generic JSON value, the result type of parsing model output. -/
inductive Json where
  | null : Json
  | bool (b : Bool) : Json
  | num (n : Int) : Json
  | str (s : String) : Json
  | arr (items : List Json) : Json
  | obj (members : List (String × Json)) : Json

/-- The backslash character. -/
def backslashChar : Char := Char.ofNat 92

/-- The double-quote character. -/
def quoteChar : Char := Char.ofNat 34

/-- The opening curly bracket character. -/
def openBrace : Char := Char.ofNat 123

/-- The closing curly bracket character. -/
def closeBrace : Char := Char.ofNat 125

/-- Escape one character as inside a Python `json.dumps` string literal. -/
def escapeJsonChar (c : Char) : String :=
  if c = quoteChar then String.mk [backslashChar, quoteChar]
  else if c = backslashChar then String.mk [backslashChar, backslashChar]
  else if c.toNat < 32 then
    String.mk [backslashChar, 'u', '0', '0',
      (Nat.toDigits 16 c.toNat).headD '0', (Nat.toDigits 16 c.toNat).getLastD '0']
  else String.singleton c

/-- Serialize a string as a JSON string literal, quotes included. -/
def dumpJsonString (s : String) : String :=
  String.singleton quoteChar ++ String.join (s.data.map escapeJsonChar) ++
    String.singleton quoteChar

mutual

/-- Model of Python `json.dumps` with its default separators
(an item separator of comma-space and a key separator of colon-space),
restricted to the values occurring in this service. -/
def Json.dumps : Json → String
  | .null => "null"
  | .bool b => if b then "true" else "false"
  | .num n => toString n
  | .str s => dumpJsonString s
  | .arr items => "[" ++ dumpsItems items ++ "]"
  | .obj members => "\x7b" ++ dumpsMembers members ++ "\x7d"

/-- Serialize array items, comma-space separated. -/
def dumpsItems : List Json → String
  | [] => ""
  | [x] => x.dumps
  | x :: y :: rest => x.dumps ++ ", " ++ dumpsItems (y :: rest)

/-- Serialize object members, comma-space separated, colon-space after keys. -/
def dumpsMembers : List (String × Json) → String
  | [] => ""
  | [(k, v)] => dumpJsonString k ++ ": " ++ v.dumps
  | (k, v) :: m :: rest => dumpJsonString k ++ ": " ++ v.dumps ++ ", " ++
      dumpsMembers (m :: rest)

end

/-- Skip JSON whitespace (space, tab, newline, carriage return). -/
def skipWs : List Char → List Char
  | [] => []
  | c :: rest =>
    if c = ' ' ∨ c = Char.ofNat 9 ∨ c = Char.ofNat 10 ∨ c = Char.ofNat 13 then
      skipWs rest
    else c :: rest

/-- Value of a hexadecimal digit character. -/
def hexVal (c : Char) : Option Nat :=
  if '0' ≤ c ∧ c ≤ '9' then some (c.toNat - 48)
  else if 'a' ≤ c ∧ c ≤ 'f' then some (c.toNat - 87)
  else if 'A' ≤ c ∧ c ≤ 'F' then some (c.toNat - 55)
  else none

/-- Parse the remainder of a JSON string literal, after the opening quote.
`fuel` bounds the recursion depth; callers pass the input length plus one. -/
def parseStringBody : Nat → List Char → Except String (String × List Char)
  | 0, _ => .error "Unterminated string"
  | _, [] => .error "Unterminated string"
  | fuel + 1, c :: rest =>
    if c = quoteChar then .ok ("", rest)
    else if c = backslashChar then
      let decoded : Except String (Char × List Char) :=
        match rest with
        | [] => .error "Unterminated string escape"
        | e :: rest2 =>
          if e = quoteChar then .ok (quoteChar, rest2)
          else if e = backslashChar then .ok (backslashChar, rest2)
          else if e = '/' then .ok ('/', rest2)
          else if e = 'b' then .ok (Char.ofNat 8, rest2)
          else if e = 'f' then .ok (Char.ofNat 12, rest2)
          else if e = 'n' then .ok (Char.ofNat 10, rest2)
          else if e = 'r' then .ok (Char.ofNat 13, rest2)
          else if e = 't' then .ok (Char.ofNat 9, rest2)
          else if e = 'u' then
            match rest2 with
            | h1 :: h2 :: h3 :: h4 :: rest3 =>
              match hexVal h1, hexVal h2, hexVal h3, hexVal h4 with
              | some a, some b, some c3, some d =>
                .ok (Char.ofNat (a * 4096 + b * 256 + c3 * 16 + d), rest3)
              | _, _, _, _ => .error "Invalid hex escape"
            | _ => .error "Invalid hex escape"
          else .error "Invalid escape"
      match decoded with
      | .error msg => .error msg
      | .ok (ch, rest3) =>
        match parseStringBody fuel rest3 with
        | .error msg => .error msg
        | .ok (s, rest4) => .ok (String.singleton ch ++ s, rest4)
    else
      match parseStringBody fuel rest with
      | .error msg => .error msg
      | .ok (s, rest2) => .ok (String.singleton c ++ s, rest2)

/-- Decide whether a character is a decimal digit. -/
def isDigitChar (c : Char) : Bool := '0' ≤ c ∧ c ≤ '9'

/-- Consume a maximal run of decimal digits, accumulating their value. -/
def parseDigits : List Char → Nat → Nat × List Char
  | [], acc => (acc, [])
  | c :: rest, acc =>
    if isDigitChar c then parseDigits rest (acc * 10 + (c.toNat - 48))
    else (acc, c :: rest)

mutual

/-- Parse one JSON value from the front of the input.
`fuel` bounds the recursion depth; callers pass the input length plus one. -/
def parseValue : Nat → List Char → Except String (Json × List Char)
  | 0, _ => .error "Expecting value"
  | fuel + 1, input =>
    match skipWs input with
    | [] => .error "Expecting value"
    | c :: rest =>
      if c = quoteChar then
        match parseStringBody (rest.length + 1) rest with
        | .error msg => .error msg
        | .ok (s, rest2) => .ok (.str s, rest2)
      else if c = openBrace then
        match skipWs rest with
        | c2 :: rest2 =>
          if c2 = closeBrace then .ok (.obj [], rest2)
          else parseMembers fuel (c2 :: rest2) []
        | [] => .error "Expecting property name"
      else if c = '[' then
        match skipWs rest with
        | c2 :: rest2 =>
          if c2 = ']' then .ok (.arr [], rest2)
          else parseElements fuel (c2 :: rest2) []
        | [] => .error "Expecting value"
      else if c = 't' then
        match rest with
        | 'r' :: 'u' :: 'e' :: rest2 => .ok (.bool true, rest2)
        | _ => .error "Expecting value"
      else if c = 'f' then
        match rest with
        | 'a' :: 'l' :: 's' :: 'e' :: rest2 => .ok (.bool false, rest2)
        | _ => .error "Expecting value"
      else if c = 'n' then
        match rest with
        | 'u' :: 'l' :: 'l' :: rest2 => .ok (.null, rest2)
        | _ => .error "Expecting value"
      else if c = '-' then
        match rest with
        | d :: rest2 =>
          if isDigitChar d then
            let (n, rest3) := parseDigits rest2 (d.toNat - 48)
            .ok (.num (-(n : Int)), rest3)
          else .error "Expecting value"
        | [] => .error "Expecting value"
      else if isDigitChar c then
        let (n, rest2) := parseDigits rest (c.toNat - 48)
        .ok (.num (n : Int), rest2)
      else .error "Expecting value"

/-- Parse the members of a JSON object, positioned at a property name. -/
def parseMembers : Nat → List Char → List (String × Json) →
    Except String (Json × List Char)
  | 0, _, _ => .error "Expecting property name"
  | fuel + 1, input, acc =>
    match skipWs input with
    | c :: rest =>
      if c = quoteChar then
        match parseStringBody (rest.length + 1) rest with
        | .error msg => .error msg
        | .ok (key, rest2) =>
          match skipWs rest2 with
          | ':' :: rest3 =>
            match parseValue fuel rest3 with
            | .error msg => .error msg
            | .ok (v, rest4) =>
              match skipWs rest4 with
              | ',' :: rest5 => parseMembers fuel rest5 (acc ++ [(key, v)])
              | c5 :: rest5 =>
                if c5 = closeBrace then .ok (.obj (acc ++ [(key, v)]), rest5)
                else .error "Expecting delimiter"
              | [] => .error "Expecting delimiter"
          | _ => .error "Expecting colon delimiter"
      else .error "Expecting property name"
    | [] => .error "Expecting property name"

/-- Parse the elements of a JSON array, positioned at a value. -/
def parseElements : Nat → List Char → List Json →
    Except String (Json × List Char)
  | 0, _, _ => .error "Expecting value"
  | fuel + 1, input, acc =>
    match parseValue fuel input with
    | .error msg => .error msg
    | .ok (v, rest) =>
      match skipWs rest with
      | ',' :: rest2 => parseElements fuel rest2 (acc ++ [v])
      | ']' :: rest2 => .ok (.arr (acc ++ [v]), rest2)
      | _ => .error "Expecting delimiter"

end

/-- Model of the Python standard library function `json.loads` as used on
model output: objects, arrays, strings with the standard escapes, integers,
booleans and null (number syntax with fractions or exponents is not
modelled). Succeeds exactly when the whole input is one JSON value
surrounded by optional whitespace; the error message plays the role of the
raised `JSONDecodeError`. -/
def json_loads (text : String) : Except String Json :=
  match parseValue (text.data.length + 1) text.data with
  | .error msg => .error msg
  | .ok (v, rest) =>
    match skipWs rest with
    | [] => .ok v
    | _ => .error "Extra data"

/-- The request model declared in `main.py` (`AnalysisRequest`):
`unstructured_text` required, `context` defaulting to the fixed domain
string. -/
structure AnalysisRequest where
  unstructured_text : String
  context : String := "rural loans and government schemes in India"

/-- The static JSON-schema description `JSON_OUTPUT_SCHEMA` of `main.py`,
in declaration order. -/
def JSON_OUTPUT_SCHEMA : Json :=
  .obj [
    ("type", .str "object"),
    ("properties", .obj [
      ("summary", .obj [
        ("type", .str "string"),
        ("description", .str "A brief, one-paragraph summary of the provided text.")]),
      ("key_entities", .obj [
        ("type", .str "array"),
        ("description", .str "A list of key financial entities or terms mentioned."),
        ("items", .obj [("type", .str "string")])]),
      ("sentiment", .obj [
        ("type", .str "string"),
        ("description", .str "Overall sentiment (Positive, Negative, Neutral).")]),
      ("recommendations", .obj [
        ("type", .str "array"),
        ("description", .str "A list of 2-3 actionable financial recommendations based on the text."),
        ("items", .obj [("type", .str "string")])]),
      ("potential_risks", .obj [
        ("type", .str "array"),
        ("description", .str "A list of potential risks or downsides identified from the text."),
        ("items", .obj [("type", .str "string")])])]),
    ("required", .arr [.str "summary", .str "key_entities", .str "sentiment",
      .str "recommendations", .str "potential_risks"])]

/-- The f-string text from its opening up to the interpolated
`request.context`. -/
def promptBeforeContext : String :=
  "\n        Analyze the following unstructured text regarding financial matters, specifically in the context of \x27"

/-- The f-string text between the interpolated `request.context` and the
interpolated schema dump. -/
def promptContextToSchema : String :=
  "\x27.\n        Your task is to act as an expert financial analyst. Extract key information, identify risks, and provide actionable recommendations.\n        \n        Please provide your analysis strictly in the following JSON format:\n        "

/-- The f-string text between the interpolated schema dump and the
interpolated `request.unstructured_text`. -/
def promptSchemaToText : String :=
  "\n\n        Here is the text to analyze:\n        ---\n        "

/-- The f-string text after the interpolated `request.unstructured_text`. -/
def promptAfterText : String :=
  "\n        ---\n        "

/-- The prompt built by the handler: the f-string of `main.py` lines 65-76,
with `request.context`, `json.dumps(JSON_OUTPUT_SCHEMA)` and
`request.unstructured_text` interpolated. -/
def buildPrompt (request : AnalysisRequest) : String :=
  promptBeforeContext ++ request.context ++ promptContextToSchema ++
    Json.dumps JSON_OUTPUT_SCHEMA ++ promptSchemaToText ++
    request.unstructured_text ++ promptAfterText

/-- An HTTP response of this service: either a JSON body with a status, or
the JSON error shape FastAPI produces from a raised `HTTPException`
(a body holding a `detail` string). -/
inductive Response where
  | jsonResponse (status : Nat) (content : Json)
  | errorDetail (status : Nat) (detail : String)

/-- The status code of a response. -/
def Response.statusCode : Response → Nat
  | .jsonResponse status _ => status
  | .errorDetail status _ => status

/-- Whether a response is the error shape (a `detail` body). -/
def Response.isError : Response → Bool
  | .jsonResponse _ _ => false
  | .errorDetail _ _ => true

/-- Handler computations with one effect: invoking the generation provider
(`model.generate_content_async`). The continuation receives either the
response text or the text of a raised exception. -/
inductive AgentM (α : Type) where
  | pure (a : α) : AgentM α
  | generateContent (prompt : String) (k : Except String String → AgentM α) : AgentM α

/-- Run a handler computation against a provider oracle, returning the
result together with the list of prompts sent to the provider. -/
def AgentM.run {α : Type} : AgentM α → (String → Except String String) → α × List String
  | .pure a, _ => (a, [])
  | .generateContent prompt k, gen =>
    let rest := (k (gen prompt)).run gen
    (rest.1, prompt :: rest.2)

/-- The detail string of the handler's catch-all `HTTPException`. -/
def internalErrorDetail (e : String) : String :=
  "An internal error occurred: " ++ e

/-- The `/analyze` handler `analyze_unstructured_data` of `main.py`: build
the prompt, invoke the provider once, parse its output as JSON and return
it with status 200; any exception from the provider call or the parse is
caught and mapped to a 500 `HTTPException` whose detail is a generic
message plus the stringified error. -/
def analyze_unstructured_data (request : AnalysisRequest) : AgentM Response :=
  .generateContent (buildPrompt request) fun result =>
    match result with
    | .error e => .pure (.errorDetail 500 (internalErrorDetail e))
    | .ok text =>
      match json_loads text with
      | .error e => .pure (.errorDetail 500 (internalErrorDetail e))
      | .ok parsed => .pure (.jsonResponse 200 parsed)

/-- The response of one `/analyze` request under a provider oracle. -/
def analyze (gen : String → Except String String) (request : AnalysisRequest) :
    Response :=
  ((analyze_unstructured_data request).run gen).1

/-- The prompts sent to the provider during one `/analyze` request. -/
def providerCalls (gen : String → Except String String)
    (request : AnalysisRequest) : List String :=
  ((analyze_unstructured_data request).run gen).2

/-- First value bound to a key in a JSON object (objects parsed from JSON
text have unique keys). -/
def lookupField : List (String × Json) → String → Option Json
  | [], _ => none
  | (k, v) :: rest, key => if k = key then some v else lookupField rest key

/-- Modelled from the spec: the request-body validation FastAPI and
pydantic perform against the declared `AnalysisRequest` model before the
handler runs (the framework code is outside this repository). The body
must be a JSON object whose `unstructured_text` member is a string;
`context` is optional, defaulting to the fixed domain string, and must be
a string when present; other members are ignored. -/
def validate_body (body : Json) : Except String AnalysisRequest :=
  match body with
  | .obj members =>
    match lookupField members "unstructured_text" with
    | some (.str t) =>
      match lookupField members "context" with
      | none => .ok { unstructured_text := t }
      | some (.str c) => .ok { unstructured_text := t, context := c }
      | some _ => .error "Input should be a valid string"
    | some _ => .error "Input should be a valid string"
    | none => .error "Field required"
  | _ => .error "Input should be a valid object"

/-- Whether validation of a request body fails. -/
def validationFails (body : Json) : Bool :=
  match validate_body body with
  | .error _ => true
  | .ok _ => false

/-- Whether a JSON body has an `unstructured_text` member that is a
string. -/
def bodyHasStringText (body : Json) : Bool :=
  match body with
  | .obj members =>
    match lookupField members "unstructured_text" with
    | some (.str _) => true
    | _ => false
  | _ => false

/-- A full `POST /analyze` exchange: validate the JSON body against the
declared model; on failure answer with the framework's 422 validation
error without running the handler, otherwise run the handler. Returns the
response and the list of prompts sent to the provider. -/
def postAnalyze (gen : String → Except String String) (body : Json) :
    Response × List String :=
  match validate_body body with
  | .error e => (.errorDetail 422 e, [])
  | .ok request => (analyze_unstructured_data request).run gen

/-- The health-check handler `read_root` of `main.py`, serialized by the
framework as a 200 JSON response. -/
def read_root : Response :=
  .jsonResponse 200 (.obj [("status", .str "Agent is running")])

/-- Python truthiness of an optional string: `None` and the empty string
are falsy. -/
def pyTruthyStr : Option String → Bool
  | none => false
  | some s => s ≠ ""

/-- The startup check of `main.py` lines 17-19: read `GEMINI_API_KEY` from
the environment and raise `ValueError` when it is missing or falsy. -/
def startup (gemini_api_key : Option String) : Except String Unit :=
  if pyTruthyStr gemini_api_key then .ok ()
  else .error "GEMINI_API_KEY environment variable not set."

/-- C1: for every `/analyze` request, if the generation provider returns
text that parses as a valid JSON value `j`, then the handler returns HTTP
status 200 with exactly `j` as the response body, unmodified. -/
theorem analyze_returns_parsed_provider_json
    (gen : String → Except String String) (request : AnalysisRequest)
    (text : String) (j : Json)
    (hgen : gen (buildPrompt request) = .ok text)
    (hparse : json_loads text = .ok j) :
    analyze gen request = .jsonResponse 200 j := by
  simp [analyze, analyze_unstructured_data, AgentM.run, hgen, hparse]

/-- Witness for C1 at a concrete request and provider output. -/
theorem analyze_returns_parsed_provider_json_witness :
    analyze (fun _ => .ok "[1, 2]") ⟨"hello", "ctx"⟩ =
      .jsonResponse 200 (.arr [.num 1, .num 2]) :=
  analyze_returns_parsed_provider_json (fun _ => .ok "[1, 2]") ⟨"hello", "ctx"⟩
    "[1, 2]" (.arr [.num 1, .num 2]) rfl rfl

/-- C8: the health-check handler returns HTTP 200 with body
`status: "Agent is running"`; it takes no inputs, so the result is
independent of the provider and of the configuration of `/analyze`. -/
theorem read_root_returns_running_status :
    read_root = .jsonResponse 200 (.obj [("status", .str "Agent is running")]) :=
  rfl

/-- C9: for every `/analyze` request and every provider behavior, the
provider is invoked exactly once, with the built prompt; in particular it
is never invoked again after a failure (no retry). -/
theorem provider_called_exactly_once
    (gen : String → Except String String) (request : AnalysisRequest) :
    providerCalls gen request = [buildPrompt request] := by
  unfold providerCalls analyze_unstructured_data
  cases hgen : gen (buildPrompt request) with
  | error e => simp [AgentM.run, hgen]
  | ok text =>
    cases hparse : json_loads text with
    | error e => simp [AgentM.run, hgen, hparse]
    | ok j => simp [AgentM.run, hgen, hparse]

/-- C2: for every `/analyze` request, if the provider call raises or the
returned text fails to parse as JSON, the handler returns HTTP 500 with a
detail string made of the generic message plus the stringified error; and
in every case the result is either such a 500 or a 200, so no exception
escapes the handler. -/
theorem analyze_maps_exceptions_to_500
    (gen : String → Except String String) (request : AnalysisRequest) :
    (∀ e, gen (buildPrompt request) = .error e →
      analyze gen request = .errorDetail 500 ("An internal error occurred: " ++ e))
    ∧ (∀ text e, gen (buildPrompt request) = .ok text → json_loads text = .error e →
      analyze gen request = .errorDetail 500 ("An internal error occurred: " ++ e))
    ∧ ((∃ j, analyze gen request = .jsonResponse 200 j)
      ∨ (∃ e, analyze gen request =
          .errorDetail 500 ("An internal error occurred: " ++ e))) := by
  refine ⟨fun e hgen => ?_, fun text e hgen hparse => ?_, ?_⟩
  · simp [analyze, analyze_unstructured_data, AgentM.run, hgen, internalErrorDetail]
  · simp [analyze, analyze_unstructured_data, AgentM.run, hgen, hparse,
      internalErrorDetail]
  · cases hgen : gen (buildPrompt request) with
    | error e =>
      exact .inr ⟨e, by
        simp [analyze, analyze_unstructured_data, AgentM.run, hgen,
          internalErrorDetail]⟩
    | ok text =>
      cases hparse : json_loads text with
      | error e =>
        exact .inr ⟨e, by
          simp [analyze, analyze_unstructured_data, AgentM.run, hgen, hparse,
            internalErrorDetail]⟩
      | ok j =>
        exact .inl ⟨j, by
          simp [analyze, analyze_unstructured_data, AgentM.run, hgen, hparse]⟩

/-- Witness for C2 at a concrete request, with a provider that raises. -/
theorem analyze_maps_exceptions_to_500_witness :
    analyze (fun _ => .error "boom") ⟨"hello", "ctx"⟩ =
      .errorDetail 500 ("An internal error occurred: " ++ "boom") :=
  (analyze_maps_exceptions_to_500 (fun _ => .error "boom") ⟨"hello", "ctx"⟩).1
    "boom" rfl

/-- C3: for every `/analyze` request, the prompt sent to the provider
contains the request's `unstructured_text` verbatim, preceded by text
ending in a separator marker line and followed by text starting with a
separator marker line. -/
theorem prompt_contains_unstructured_text_delimited (request : AnalysisRequest) :
    buildPrompt request = promptBeforeContext ++ request.context ++
      promptContextToSchema ++ Json.dumps JSON_OUTPUT_SCHEMA ++
      promptSchemaToText ++ request.unstructured_text ++ promptAfterText
    ∧ "---\n        ".data.isSuffixOf promptSchemaToText.data = true
    ∧ "\n        ---".data.isPrefixOf promptAfterText.data = true :=
  ⟨rfl, by decide, by decide⟩

/-- C4: for every `/analyze` request, when `context` is omitted the prompt
contains the default domain string in the context position, and when
`context` is supplied the prompt contains exactly the supplied string in
that position. -/
theorem prompt_context_default_and_override (t c : String) :
    buildPrompt { unstructured_text := t } = promptBeforeContext ++
      "rural loans and government schemes in India" ++ promptContextToSchema ++
      Json.dumps JSON_OUTPUT_SCHEMA ++ promptSchemaToText ++ t ++ promptAfterText
    ∧ buildPrompt { unstructured_text := t, context := c } = promptBeforeContext ++
      c ++ promptContextToSchema ++ Json.dumps JSON_OUTPUT_SCHEMA ++
      promptSchemaToText ++ t ++ promptAfterText :=
  ⟨rfl, rfl⟩

/-- C5: for every `/analyze` request, the handler yields the error shape
exactly when the provider call raises or its text is not valid JSON; and
whenever the text parses as JSON, the parsed value is returned as a 200
success regardless of which fields it contains. -/
theorem analyze_error_iff_provider_or_parse_failure
    (gen : String → Except String String) (request : AnalysisRequest) :
    ((∃ s d, analyze gen request = .errorDetail s d) ↔
      ((∃ e, gen (buildPrompt request) = .error e)
        ∨ (∃ text e, gen (buildPrompt request) = .ok text
            ∧ json_loads text = .error e)))
    ∧ (∀ text j, gen (buildPrompt request) = .ok text → json_loads text = .ok j →
        analyze gen request = .jsonResponse 200 j) := by
  constructor
  · cases hgen : gen (buildPrompt request) with
    | error e =>
      constructor
      · intro _
        exact .inl ⟨e, rfl⟩
      · intro _
        exact ⟨500, "An internal error occurred: " ++ e, by
          simp [analyze, analyze_unstructured_data, AgentM.run, hgen,
            internalErrorDetail]⟩
    | ok text =>
      cases hparse : json_loads text with
      | error e =>
        constructor
        · intro _
          exact .inr ⟨text, e, rfl, hparse⟩
        · intro _
          exact ⟨500, "An internal error occurred: " ++ e, by
            simp [analyze, analyze_unstructured_data, AgentM.run, hgen, hparse,
              internalErrorDetail]⟩
      | ok j =>
        constructor
        · intro ⟨s, d, h⟩
          rw [show analyze gen request = .jsonResponse 200 j by
            simp [analyze, analyze_unstructured_data, AgentM.run, hgen, hparse]] at h
          exact absurd h (by simp)
        · rintro (⟨e, he⟩ | ⟨text2, e, he, hp⟩)
          · exact absurd he (by simp)
          · injection he with h
            subst h
            rw [hparse] at hp
            exact absurd hp (by simp)
  · intro text j hgen hparse
    simp [analyze, analyze_unstructured_data, AgentM.run, hgen, hparse]

/-- Witness for C5 at a concrete request and JSON-parsing provider
output. -/
theorem analyze_error_iff_provider_or_parse_failure_witness :
    analyze (fun _ => .ok "null") ⟨"t", "c"⟩ = .jsonResponse 200 .null :=
  (analyze_error_iff_provider_or_parse_failure (fun _ => .ok "null")
    ⟨"t", "c"⟩).2 "null" .null rfl rfl

/-- C6 counterexample: a provider output that is valid JSON but omits the
five schema fields is returned as a 200 success, not surfaced as a parse
failure. -/
theorem json_without_schema_fields_success_counterexample :
    analyze (fun _ => .ok "\x7b\"summary\": \"ok\"\x7d") ⟨"text", "c"⟩ =
      .jsonResponse 200 (.obj [("summary", .str "ok")])
    ∧ (analyze (fun _ => .ok "\x7b\"summary\": \"ok\"\x7d")
        ⟨"text", "c"⟩).isError = false :=
  ⟨rfl, rfl⟩

/-- C6 amended: if the model returns text that is not valid JSON, the
handler surfaces that as a parse failure mapped to the 500 error outcome;
text that is valid JSON is returned as a 200 success even when it omits
fields of the declared schema, since no schema validation is performed. -/
theorem analyze_parse_failure_not_schema_validation
    (gen : String → Except String String) (request : AnalysisRequest)
    (text : String) :
    (∀ e, gen (buildPrompt request) = .ok text → json_loads text = .error e →
      analyze gen request = .errorDetail 500 (internalErrorDetail e))
    ∧ (∀ j, gen (buildPrompt request) = .ok text → json_loads text = .ok j →
      analyze gen request = .jsonResponse 200 j) := by
  constructor
  · intro e hgen hparse
    simp [analyze, analyze_unstructured_data, AgentM.run, hgen, hparse]
  · intro j hgen hparse
    simp [analyze, analyze_unstructured_data, AgentM.run, hgen, hparse]

/-- Witness for the amended C6 at a concrete request, with provider output
that is not JSON. -/
theorem analyze_parse_failure_not_schema_validation_witness :
    analyze (fun _ => .ok "not json") ⟨"t", "c"⟩ =
      .errorDetail 500 (internalErrorDetail "Expecting value") :=
  (analyze_parse_failure_not_schema_validation (fun _ => .ok "not json")
    ⟨"t", "c"⟩ "not json").1 "Expecting value" rfl rfl

/-- C7 counterexample: with `GEMINI_API_KEY` present in the environment
but bound to the empty string, startup does not proceed: the truthiness
check of `main.py` line 18 treats the empty string like an absent value
and raises. -/
theorem startup_empty_key_counterexample :
    startup (some "") = .error "GEMINI_API_KEY environment variable not set."
    ∧ startup (some "") ≠ .ok () :=
  ⟨rfl, by simp [startup, pyTruthyStr]⟩

/-- C7 amended: startup succeeds exactly when the `GEMINI_API_KEY`
environment variable is present with a non-empty value; when it is absent,
or present but empty, a fatal error is raised before any request is
served. -/
theorem startup_ok_iff_nonempty_key (env : Option String) :
    startup env = .ok () ↔ ∃ k, env = some k ∧ k ≠ "" := by
  cases env with
  | none => simp [startup, pyTruthyStr]
  | some s =>
    by_cases h : s = "" <;> simp [startup, pyTruthyStr, h]

/-- C10: a request body that lacks a string `unstructured_text` member is
rejected by the declared-model validation before the handler runs: the
response is a 422 validation error, not the handler's 500, and the
provider is never invoked. -/
theorem invalid_body_rejected_before_provider
    (gen : String → Except String String) (body : Json)
    (h : bodyHasStringText body = false) :
    validationFails body = true
    ∧ (postAnalyze gen body).1.statusCode = 422
    ∧ (postAnalyze gen body).1.isError = true
    ∧ (postAnalyze gen body).2 = [] := by
  cases body with
  | null => exact ⟨rfl, rfl, rfl, rfl⟩
  | bool b => exact ⟨rfl, rfl, rfl, rfl⟩
  | num n => exact ⟨rfl, rfl, rfl, rfl⟩
  | str s => exact ⟨rfl, rfl, rfl, rfl⟩
  | arr items => exact ⟨rfl, rfl, rfl, rfl⟩
  | obj members =>
    cases hf : lookupField members "unstructured_text" with
    | none =>
      simp [validationFails, postAnalyze, validate_body, hf,
        Response.statusCode, Response.isError]
    | some j =>
      cases j with
      | str s =>
        simp [bodyHasStringText, hf] at h
      | null =>
        simp [validationFails, postAnalyze, validate_body, hf,
          Response.statusCode, Response.isError]
      | bool b =>
        simp [validationFails, postAnalyze, validate_body, hf,
          Response.statusCode, Response.isError]
      | num n =>
        simp [validationFails, postAnalyze, validate_body, hf,
          Response.statusCode, Response.isError]
      | arr items =>
        simp [validationFails, postAnalyze, validate_body, hf,
          Response.statusCode, Response.isError]
      | obj members2 =>
        simp [validationFails, postAnalyze, validate_body, hf,
          Response.statusCode, Response.isError]

/-- Witness for C10 at a concrete body lacking `unstructured_text`. -/
theorem invalid_body_rejected_before_provider_witness :
    bodyHasStringText (.obj [("context", .str "c")]) = false
    ∧ (validationFails (.obj [("context", .str "c")]) = true
      ∧ (postAnalyze (fun _ => .ok "null")
          (.obj [("context", .str "c")])).1.statusCode = 422
      ∧ (postAnalyze (fun _ => .ok "null")
          (.obj [("context", .str "c")])).1.isError = true
      ∧ (postAnalyze (fun _ => .ok "null")
          (.obj [("context", .str "c")])).2 = []) :=
  ⟨rfl, invalid_body_rejected_before_provider (fun _ => .ok "null")
    (.obj [("context", .str "c")]) rfl⟩
